import Mathlib

/-!
Verification of the CM710-4 RFID protocol scripts:
`src/rfid-project/rfid_scripts/{set_config,check_config,rfid_reader}.py`
and `src/local/scripts/rfid_reader.py`.

Bytes are modelled as `Nat` values (elements of Python `bytes`, which are
below 256 on real streams); Python hex strings are `List Char`; Python
floats produced by `x / 10.0` and `x / 100.0` are modelled over `ℚ`.
-/

namespace CM710

/-- Uppercase hex digit for a nibble value, as produced by Python `"%X"` formatting. -/
def hexDigit (n : Nat) : Char := if n < 10 then Char.ofNat (48 + n) else Char.ofNat (55 + n)

/-- Python `f"{n:02X}"` for `n < 256`: exactly two uppercase hex digits. -/
def hex2 (n : Nat) : List Char := [hexDigit (n / 16 % 16), hexDigit (n % 16)]

/-- Python `f"{n:04X}"` for `n < 65536`: exactly four uppercase hex digits. -/
def hex4 (n : Nat) : List Char :=
  [hexDigit (n / 4096 % 16), hexDigit (n / 256 % 16), hexDigit (n / 16 % 16), hexDigit (n % 16)]

/-- Value of one hex digit, as accepted by Python `int(s, 16)` and `bytes.fromhex`. -/
def hexVal? (c : Char) : Option Nat :=
  if 48 ≤ c.toNat ∧ c.toNat ≤ 57 then some (c.toNat - 48)
  else if 65 ≤ c.toNat ∧ c.toNat ≤ 70 then some (c.toNat - 55)
  else if 97 ≤ c.toNat ∧ c.toNat ≤ 102 then some (c.toNat - 87)
  else none

/-- Python `bytes.fromhex`: two hex digits per byte, an ASCII space allowed between
byte pairs; `none` models the `ValueError` raised on an odd count of hex digits
(a dangling single digit) or on a non-hex character. -/
def bytesFromHex : List Char → Option (List Nat)
  | [] => some []
  | c :: r =>
    if c = ' ' then bytesFromHex r
    else
      match r with
      | [] => none
      | d :: r' =>
        match hexVal? c, hexVal? d, bytesFromHex r' with
        | some x, some y, some bs => some ((16 * x + y) :: bs)
        | _, _, _ => none

/-- The byte values taken two hex characters at a time by `calcular_bcc`
(`int(dados_hex[i:i+2], 16)` for `i = 0, 2, 4, ...`); a trailing lone character
contributes its single-digit value, exactly as Python's slice `s[i:i+2]` yields
one character there. Only hex characters are modelled (the scripts only pass
hex strings); a non-hex character defaults to 0. -/
def hexPairs : List Char → List Nat
  | [] => []
  | [a] => [(hexVal? a).getD 0]
  | a :: b :: r => (16 * (hexVal? a).getD 0 + (hexVal? b).getD 0) :: hexPairs r

/-- `calcular_bcc` (set_config.py and check_config.py): starting from 0, XOR in the
value of each two-character slice of the hex string. -/
def calcular_bcc (dados_hex : List Char) : Nat :=
  (hexPairs dados_hex).foldl (fun bcc byte => bcc ^^^ byte) 0

/-! ### set_config.py frame builders -/

/-- set_config.py power branch: `if not 5 <= dbm <= 30: dbm = 20` — an out-of-range
requested power is replaced by the default 20, not rejected. -/
def dbmEff (dbm : Int) : Nat := if 5 ≤ dbm ∧ dbm ≤ 30 then dbm.toNat else 20

/-- set_config.py: `dados = f"000E100201{pot_hex}{pot_hex}"` with
`pot_hex = f"{dbm*100:04X}"` (read-power and write-power sub-fields). -/
def dados_potencia (dbm : Int) : List Char :=
  "000E100201".toList ++ hex4 (dbmEff dbm * 100) ++ hex4 (dbmEff dbm * 100)

/-- set_config.py: `cmd = f"C88C{dados}{bcc:02X}0D0A"`, the pattern shared by every
configuration branch. -/
def cmdOfDados (dados : List Char) : List Char :=
  "C88C".toList ++ dados ++ hex2 (calcular_bcc dados) ++ "0D0A".toList

def cmd_potencia (dbm : Int) : List Char := cmdOfDados (dados_potencia dbm)

/-- set_config.py region branch: `dados = f"000A2C01{regiao_hex}"`; the config value is
a two-hex-digit string such as `"3C"`, modelled as the byte it denotes. -/
def dados_regiao (code : Nat) : List Char := "000A2C01".toList ++ hex2 code

def cmd_regiao (code : Nat) : List Char := cmdOfDados (dados_regiao code)

/-- set_config.py antenna branch: `dados = f"000B28010{ant_mask:02X}"` — note the single
literal `0` before the mask field, so for every mask below 0x100 the hex string has
an odd number of characters. -/
def dados_antenas (mask : Nat) : List Char := "000B28010".toList ++ hex2 mask

def cmd_antenas (mask : Nat) : List Char := cmdOfDados (dados_antenas mask)

/-- set_config.py frequency branch: `b0 = freq & 0xFF`. -/
def freq_b0 (khz : Nat) : Nat := khz &&& 0xFF

/-- set_config.py frequency branch: `b1 = (freq >> 8) & 0xFF`. -/
def freq_b1 (khz : Nat) : Nat := (khz >>> 8) &&& 0xFF

/-- set_config.py frequency branch: `b2 = (freq >> 16) & 0xFF`. -/
def freq_b2 (khz : Nat) : Nat := (khz >>> 16) &&& 0xFF

/-- set_config.py: `dados = f"000C1401{b2:02X}{b1:02X}{b0:02X}"`. -/
def dados_freq (khz : Nat) : List Char :=
  "000C1401".toList ++ hex2 (freq_b2 khz) ++ hex2 (freq_b1 khz) ++ hex2 (freq_b0 khz)

def cmd_freq (khz : Nat) : List Char := cmdOfDados (dados_freq khz)

/-- Outcome of the set_config.py frequency branch: either a command hex string is
built and handed to `enviar_comando`, or the branch body is skipped entirely. -/
inductive FreqOutcome
  | sent (cmdHex : List Char)
  | skipped
deriving DecidableEq, Repr

/-- set_config.py: `if 840000 <= freq <= 928000:` guards the whole frequency branch;
outside the range nothing is built, nothing is written, and no entry (and in
particular no error) is added to the result dict. -/
def freqOutcome (khz : Nat) : FreqOutcome :=
  if 840000 ≤ khz ∧ khz ≤ 928000 then .sent (cmd_freq khz) else .skipped

/-- set_config.py fastid branch: `dados = f"000A5C{fastid_val}00"`; the config value is
a two-hex-digit string such as `"01"`, modelled as the byte it denotes. -/
def dados_fastid (v : Nat) : List Char := "000A5C".toList ++ hex2 v ++ "00".toList

def cmd_fastid (v : Nat) : List Char := cmdOfDados (dados_fastid v)

/-- enviar_comando (set_config.py): `cmd = bytes.fromhex(cmd_hex); ser.write(cmd)` with
every exception caught — a `ValueError` from `fromhex` means nothing is written.
The bytes actually written to the serial channel are therefore
`bytesFromHex cmd_hex`, or nothing when that is `none`. -/
def bytesWritten (cmdHex : List Char) : Option (List Nat) := bytesFromHex cmdHex

/-! ### Fixed command frames hardcoded in the scripts -/

/-- check_config.py `decodificar_firmware`: request `"C88C0008020A0D0A"`. -/
def firmware_req : List Char := "C88C0008020A0D0A".toList

/-- check_config.py `decodificar_temperatura`: request `"C88C0008343C0D0A"`. -/
def temp_req : List Char := "C88C0008343C0D0A".toList

/-- check_config.py `decodificar_potencia`: request `"C88C0008121A0D0A"`. -/
def power_req : List Char := "C88C0008121A0D0A".toList

/-- check_config.py `decodificar_regiao`: request `"C88C0008 2E260D0A"` (the space is in
the source; `bytes.fromhex` ignores it). -/
def regiao_req : List Char := "C88C0008 2E260D0A".toList

/-- check_config.py `decodificar_antenas`: request `"C88C0008 2A220D0A"`. -/
def antenas_req : List Char := "C88C0008 2A220D0A".toList

/-- check_config.py `decodificar_fastid`: request `"C88C000A5E0000540D0A"`. -/
def fastid_req : List Char := "C88C000A5E0000540D0A".toList

/-- rfid_reader.py: continuous-inventory start frame `"C88C000A820000880D0A"`. -/
def start_inventory : List Char := "C88C000A820000880D0A".toList

/-- rfid_reader.py `sair` / set_config.py / check_config.py: stop frame
`"C88C00088C840D0A"`. -/
def stop_inventory : List Char := "C88C00088C840D0A".toList

/-- enviar_comando (check_config.py) response validation:
`resp and len(resp) >= 8 and resp[:2] == b'\xC8\x8C'` and, when an expected
response command is given, `resp[4] == cmd_esperado_resp`. No other byte of the
response — in particular neither the checksum nor the trailer — is examined. -/
def resp_ok (resp : List Nat) (esperado : Option Nat) : Bool :=
  decide (8 ≤ resp.length) && decide (resp.take 2 = [0xC8, 0x8C]) &&
    match esperado with
    | none => true
    | some c => decide (resp.getD 4 0 = c)

/-! ### Inventory stream parsing (rfid_reader.py, both variants) -/

/-- Python `bytes.hex().upper()`: two uppercase hex characters per byte. -/
def hexUpper : List Nat → List Char
  | [] => []
  | b :: bs => hex2 b ++ hexUpper bs

/-- rfid_reader.py antenna decode: `((frame[i] - 1) % 4) + 1`; Python `%` on ints is
Lean's `Int.emod` (result in `[0, 3]` here). -/
def decodeAntenna (raw : Nat) : Int := ((raw : Int) - 1) % 4 + 1

/-- rfid_reader.py 16-bit big-endian field: `frame[i] << 8 | frame[i+1]`. -/
def word16 (hi lo : Nat) : Nat := (hi <<< 8) ||| lo

/-- rfid_reader.py: the EPC byte length the parser derives from a frame's PC field,
`((pc >> 11) & 0x1F) * 2` with `pc = frame[5] << 8 | frame[6]`. -/
def epcLenOf (frame : List Nat) : Nat :=
  ((word16 (frame.getD 5 0) (frame.getD 6 0) >>> 11) &&& 0x1F) * 2

/-- rfid_reader.py RSSI decode:
`(rssi_raw - 65536)/10.0 if rssi_raw > 32767 else rssi_raw/10.0`, over ℚ. -/
def decodeRssi (raw : Nat) : ℚ :=
  if 32767 < raw then ((raw : ℚ) - 65536) / 10 else (raw : ℚ) / 10

/-- One decoded inventory event (EPC as its uppercase hex string, antenna, RSSI). -/
structure Reading where
  epc : List Char
  ant : Int
  rssi : ℚ
deriving DecidableEq, Repr

/-- Result of running the per-frame parsing body on one frame: the guard chain may
skip the frame, an out-of-range `frame[i]` access may raise `IndexError` (`crash`),
or a reading is produced. -/
inductive FrameStep
  | skip
  | crash
  | ok (r : Reading)
deriving DecidableEq, Repr

/-- The per-frame body shared verbatim by rfid_scripts/rfid_reader.py (lines 99-110)
and local/scripts/rfid_reader.py `parse_frame`:
guards `len(frame) < 12`, `frame[:2] != b'\xC8\x8C'`, `frame[4] != 0x83`; then
`pc = frame[5] << 8 | frame[6]`, `epc_len = ((pc >> 11) & 0x1F) * 2`,
`epc = frame[7:7+epc_len].hex().upper()`, RSSI from `frame[7+epc_len..]`, antenna
from `frame[9+epc_len]`. The RSSI/antenna accesses `frame[i]` raise `IndexError`
(`crash`) when the frame is shorter than `10 + epc_len`; the EPC slice itself never
raises and is simply truncated. -/
def parseFrame (frame : List Nat) : FrameStep :=
  if frame.length < 12 then .skip
  else if ¬ frame.take 2 = [0xC8, 0x8C] then .skip
  else if ¬ frame.getD 4 0 = 0x83 then .skip
  else
    let epcLen := epcLenOf frame
    let epc := hexUpper ((frame.drop 7).take epcLen)
    if frame.length < 10 + epcLen then .crash
    else
      let rssiRaw := word16 (frame.getD (7 + epcLen) 0) (frame.getD (8 + epcLen) 0)
      .ok ⟨epc, decodeAntenna (frame.getD (9 + epcLen) 0), decodeRssi rssiRaw⟩

/-- The buffer-chunking both reader loops perform:
`while b'\x0D\x0A' in buffer: pos = buffer.find(b'\x0D\x0A'); ... buffer[:pos+2]`.
Splits the buffer into the successive chunks each ending at the first `0D 0A`
occurrence (chunk = `buffer[:pos+2]`), plus the leftover tail holding no `0D 0A`. -/
def splitCRLF : List Nat → List (List Nat) × List Nat
  | [] => ([], [])
  | 13 :: 10 :: rest =>
    let r := splitCRLF rest
    ([13, 10] :: r.1, r.2)
  | b :: rest =>
    match splitCRLF rest with
    | (c :: cs, l) => ((b :: c) :: cs, l)
    | ([], l) => ([], b :: l)

/-- The rfid_scripts/rfid_reader.py inner loop over the complete chunks. `pos < 10`
(chunk shorter than 12 bytes) discards the chunk; a parsed reading is logged via
`registrar` only when `len(epc) == 8`; any `IndexError` from the frame body
propagates to the script's outer bare `except:`, which calls `sair()` and
terminates the whole program — the `Bool` records that termination. -/
def runFrames : List (List Nat) → List Reading × Bool
  | [] => ([], false)
  | f :: fs =>
    if f.length < 12 then runFrames fs
    else
      match parseFrame f with
      | .crash => ([], true)
      | .skip => runFrames fs
      | .ok r =>
        let rest := runFrames fs
        if r.epc.length = 8 then (r :: rest.1, rest.2) else rest

/-- rfid_scripts/rfid_reader.py: process every complete frame in the buffer, returning
the readings logged and whether the loop was terminated by an uncaught exception. -/
def processBuffer (buf : List Nat) : List Reading × Bool := runFrames (splitCRLF buf).1

/-- parse_frame (src/local/scripts/rfid_reader.py): the same per-frame body, with every
exception caught inside the function and turned into `None`. -/
def parse_frame (frame : List Nat) : Option Reading :=
  match parseFrame frame with
  | .ok r => some r
  | _ => none

/-- The local/scripts/rfid_reader.py main loop over the complete chunks: readings are
logged only when `len(reading['epc']) >= 8`; parse failures just continue. -/
def runFramesLocal : List (List Nat) → List Reading
  | [] => []
  | f :: fs =>
    if f.length < 12 then runFramesLocal fs
    else
      match parse_frame f with
      | some r => if 8 ≤ r.epc.length then r :: runFramesLocal fs else runFramesLocal fs
      | none => runFramesLocal fs

/-- local/scripts/rfid_reader.py: process every complete frame in the buffer. -/
def processBufferLocal (buf : List Nat) : List Reading := runFramesLocal (splitCRLF buf).1

/-! ### FrameCodec (spec §4.1) -/

/-- XOR checksum over a byte list (the BCC of the wire format). -/
def bccBytes (l : List Nat) : Nat := l.foldl (fun bcc b => bcc ^^^ b) 0

/-- Modelled from the spec: `FrameCodec.encode` is not implemented in src/ (the scripts
hardcode their frames as hex strings); per §4.1, it builds
`length = 2 + 1 + len(data)` big-endian, the BCC as XOR over
(length bytes ++ command ++ data), and concatenates header, length, command, data,
checksum, trailer, failing with `FrameTooLarge` (`none`) for `len(data) ≥ 65533`. -/
def encode (cmd : Nat) (data : List Nat) : Option (List Nat) :=
  if 65533 ≤ data.length then none
  else
    let lenVal := 2 + 1 + data.length
    let body := [lenVal / 256, lenVal % 256, cmd] ++ data
    some ([0xC8, 0x8C] ++ body ++ [bccBytes body, 0x0D, 0x0A])

/-- Result of `try_decode` per spec §4.1. -/
inductive DecodeResult
  | needMoreData
  | invalid (skip : Nat)
  | decoded (cmd : Nat) (data : List Nat) (consumed : Nat)
deriving DecidableEq, Repr

/-- Index of the first `C8 8C` header occurrence. -/
def findHeader : List Nat → Option Nat
  | 200 :: 140 :: _ => some 0
  | _ :: rest => (findHeader rest).map (· + 1)
  | [] => none

/-- Modelled from the spec: the body of `FrameCodec.try_decode` once the header has
been located at index `i`: below 8 remaining bytes or below the full frame size
implied by the length field it returns `needMoreData`; it validates the trailer and
the checksum at their computed offsets and on success returns the command byte, the
data slice, and the total bytes consumed; on mismatch it returns `invalid` with the
resynchronization skip (past the first consumed header byte). -/
def tryDecodeFrom (i : Nat) (buf : List Nat) : DecodeResult :=
  if (buf.drop i).length < 8 then .needMoreData
  else if 256 * (buf.drop i).getD 2 0 + (buf.drop i).getD 3 0 < 3 then .invalid (i + 2)
  else if (buf.drop i).length < 256 * (buf.drop i).getD 2 0 + (buf.drop i).getD 3 0 + 5 then
    .needMoreData
  else if (buf.drop i).getD (256 * (buf.drop i).getD 2 0 + (buf.drop i).getD 3 0 + 3) 0 = 0x0D ∧
      (buf.drop i).getD (256 * (buf.drop i).getD 2 0 + (buf.drop i).getD 3 0 + 4) 0 = 0x0A ∧
      (buf.drop i).getD (256 * (buf.drop i).getD 2 0 + (buf.drop i).getD 3 0 + 2) 0 =
        bccBytes (((buf.drop i).drop 2).take
          (256 * (buf.drop i).getD 2 0 + (buf.drop i).getD 3 0)) then
    .decoded ((buf.drop i).getD 4 0)
      (((buf.drop i).drop 5).take (256 * (buf.drop i).getD 2 0 + (buf.drop i).getD 3 0 - 3))
      (i + (256 * (buf.drop i).getD 2 0 + (buf.drop i).getD 3 0) + 5)
  else .invalid (i + 2)

/-- Modelled from the spec: `FrameCodec.try_decode` is not implemented in src/ (the
readers parse only inventory frames and never validate checksums); per §4.1, it
scans for the header and decodes the frame found there via `tryDecodeFrom`. -/
def tryDecode (buf : List Nat) : DecodeResult :=
  match findHeader buf with
  | none => .needMoreData
  | some i => tryDecodeFrom i buf

/-! ### Wire-frame field extractors and shared concrete frames -/

/-- The 2-byte big-endian length field of a wire frame. -/
def lenField (f : List Nat) : Nat := 256 * f.getD 2 0 + f.getD 3 0

/-- The data payload of a wire frame laid out as
header(2) ++ length(2) ++ command(1) ++ data ++ checksum(1) ++ trailer(2). -/
def frameData (f : List Nat) : List Nat := (f.drop 5).take (f.length - 8)

/-- The power frame set_config.py sends for 20 dBm (and, via clamping, for every
out-of-range request): payload `02 01 07 D0 07 D0`, BCC `1D`. -/
def powerFrame20 : List Nat :=
  [0xC8, 0x8C, 0x00, 0x0E, 0x10, 0x02, 0x01, 0x07, 0xD0, 0x07, 0xD0, 0x1D, 0x0D, 0x0A]

/-- A well-formed inventory frame: PC 0x1000 (EPC length 2 words = 4 bytes), EPC
`E1 E2 E3 E4`, RSSI raw 0x0064 (10.0 dBm), antenna raw 2, correct BCC 0xE0. -/
def goodFrame : List Nat :=
  [0xC8, 0x8C, 0x00, 0x11, 0x83, 0x10, 0x00, 0xE1, 0xE2, 0xE3, 0xE4, 0x00, 0x64, 0x02, 0xE0,
   0x0D, 0x0A]

/-- `goodFrame` with its checksum byte corrupted from 0xE0 to 0xFF. -/
def badBccFrame : List Nat :=
  [0xC8, 0x8C, 0x00, 0x11, 0x83, 0x10, 0x00, 0xE1, 0xE2, 0xE3, 0xE4, 0x00, 0x64, 0x02, 0xFF,
   0x0D, 0x0A]

/-- A 12-byte frame whose PC field 0x3000 declares an EPC of 6 words (12 bytes), more
than the frame holds: the RSSI access `frame[19]` raises `IndexError`. -/
def shortFrame : List Nat :=
  [0xC8, 0x8C, 0x00, 0x0C, 0x83, 0x30, 0x00, 0xAA, 0xBB, 0xCC, 0x0D, 0x0A]

/-- A well-formed inventory frame with PC 0x0800: EPC length 1 word = 2 bytes, so its
hex string has 4 characters. -/
def shortEpcFrame : List Nat :=
  [0xC8, 0x8C, 0x00, 0x0F, 0x83, 0x08, 0x00, 0xE1, 0xE2, 0x00, 0x64, 0x02, 0x00, 0x0D, 0x0A]

/-- A well-formed inventory frame with PC 0x0000: EPC length 0. -/
def zeroEpcFrame : List Nat :=
  [0xC8, 0x8C, 0x00, 0x0D, 0x83, 0x00, 0x00, 0x00, 0x64, 0x02, 0x00, 0x0D, 0x0A]

/-! ### Helper lemmas on hex formatting and parsing -/

theorem hexVal?_hexDigit {n : Nat} (h : n < 16) : hexVal? (hexDigit n) = some n := by
  interval_cases n <;> decide

theorem hexVal?_getD_lt (c : Char) : (hexVal? c).getD 0 < 16 := by
  unfold hexVal?
  split_ifs with h1 h2 h3 <;> simp <;> omega

theorem hexPairs_lt (s : List Char) : ∀ v ∈ hexPairs s, v < 256 := by
  induction s using hexPairs.induct with
  | case1 => simp [hexPairs]
  | case2 a =>
    intro v hv
    simp only [hexPairs, List.mem_singleton] at hv
    have := hexVal?_getD_lt a
    omega
  | case3 a b r ih =>
    intro v hv
    simp only [hexPairs, List.mem_cons] at hv
    rcases hv with h | h
    · have h1 := hexVal?_getD_lt a
      have h2 := hexVal?_getD_lt b
      omega
    · exact ih v h

theorem foldl_xor_lt (l : List Nat) (hl : ∀ v ∈ l, v < 256) :
    ∀ acc, acc < 256 → l.foldl (fun bcc byte => bcc ^^^ byte) acc < 256 := by
  induction l with
  | nil => intro acc h; simpa using h
  | cons x xs ih =>
    intro acc hacc
    simp only [List.foldl_cons]
    refine ih (fun v hv => hl v (List.mem_cons_of_mem _ hv)) _ ?_
    have hx : x < 256 := hl x (List.mem_cons_self _ _)
    have h8 : (256 : Nat) = 2 ^ 8 := rfl
    rw [h8] at hacc hx ⊢
    exact Nat.xor_lt_two_pow hacc hx

theorem calcular_bcc_lt (s : List Char) : calcular_bcc s < 256 :=
  foldl_xor_lt _ (hexPairs_lt s) 0 (by norm_num)

theorem bfh_pair {a b : Char} {x y : Nat} (ha : hexVal? a = some x) (hb : hexVal? b = some y)
    (s : List Char) :
    bytesFromHex (a :: b :: s) = (bytesFromHex s).map ((16 * x + y) :: ·) := by
  have hsp : ¬a = ' ' := by
    intro h
    rw [h] at ha
    have hnone : hexVal? ' ' = none := by decide
    rw [hnone] at ha
    exact Option.noConfusion ha
  rw [bytesFromHex, if_neg hsp, ha, hb]
  cases h : bytesFromHex s <;> rfl

theorem bfh_hex2 {n : Nat} (hn : n < 256) {s : List Char} {bs : List Nat}
    (hs : bytesFromHex s = some bs) : bytesFromHex (hex2 n ++ s) = some (n :: bs) := by
  have he : hex2 n ++ s = hexDigit (n / 16 % 16) :: hexDigit (n % 16) :: s := rfl
  rw [he, bfh_pair (hexVal?_hexDigit (by omega)) (hexVal?_hexDigit (by omega)), hs]
  have hv : 16 * (n / 16 % 16) + n % 16 = n := by omega
  rw [Option.map_some', hv]

theorem bfh_hex4 {n : Nat} (hn : n < 65536) {s : List Char} {bs : List Nat}
    (hs : bytesFromHex s = some bs) :
    bytesFromHex (hex4 n ++ s) = some (n / 256 :: n % 256 :: bs) := by
  have he : hex4 n ++ s = hexDigit (n / 4096 % 16) :: hexDigit (n / 256 % 16) ::
      hexDigit (n / 16 % 16) :: hexDigit (n % 16) :: s := rfl
  rw [he, bfh_pair (hexVal?_hexDigit (by omega)) (hexVal?_hexDigit (by omega)),
    bfh_pair (hexVal?_hexDigit (by omega)) (hexVal?_hexDigit (by omega)), hs]
  have h1 : 16 * (n / 4096 % 16) + n / 256 % 16 = n / 256 := by omega
  have h2 : 16 * (n / 16 % 16) + n % 16 = n % 256 := by omega
  rw [Option.map_some', Option.map_some', h1, h2]

theorem bfh_pair_none {a b : Char} {x y : Nat} (ha : hexVal? a = some x)
    (hb : hexVal? b = some y) {s : List Char} (hs : bytesFromHex s = none) :
    bytesFromHex (a :: b :: s) = none := by
  rw [bfh_pair ha hb, hs]
  rfl

theorem bfh_hex2_none (n : Nat) {s : List Char}
    (hs : bytesFromHex s = none) : bytesFromHex (hex2 n ++ s) = none := by
  have he : hex2 n ++ s = hexDigit (n / 16 % 16) :: hexDigit (n % 16) :: s := rfl
  rw [he]
  exact bfh_pair_none (hexVal?_hexDigit (by omega)) (hexVal?_hexDigit (by omega)) hs

theorem dbmEff_le (d : Int) : dbmEff d ≤ 30 := by
  unfold dbmEff
  split_ifs with h
  · omega
  · norm_num

/-- The exact byte frame `enviar_comando` writes for the power branch. -/
theorem bytesWritten_potencia (d : Int) :
    bytesWritten (cmd_potencia d) =
      some [0xC8, 0x8C, 0x00, 0x0E, 0x10, 0x02, 0x01,
        dbmEff d * 100 / 256, dbmEff d * 100 % 256,
        dbmEff d * 100 / 256, dbmEff d * 100 % 256,
        calcular_bcc (dados_potencia d), 0x0D, 0x0A] := by
  have hp : dbmEff d * 100 < 65536 := by
    have := dbmEff_le d
    omega
  have hb := calcular_bcc_lt (dados_potencia d)
  show bytesFromHex (hex2 0xC8 ++ (hex2 0x8C ++ (hex2 0x00 ++ (hex2 0x0E ++ (hex2 0x10 ++
      (hex2 0x02 ++ (hex2 0x01 ++ (hex4 (dbmEff d * 100) ++ (hex4 (dbmEff d * 100) ++
      (hex2 (calcular_bcc (dados_potencia d)) ++ (hex2 0x0D ++ (hex2 0x0A ++
      ([] : List Char))))))))))))) = _
  exact bfh_hex2 (by norm_num) (bfh_hex2 (by norm_num) (bfh_hex2 (by norm_num)
    (bfh_hex2 (by norm_num) (bfh_hex2 (by norm_num) (bfh_hex2 (by norm_num)
    (bfh_hex2 (by norm_num) (bfh_hex4 hp (bfh_hex4 hp (bfh_hex2 hb
    (bfh_hex2 (by norm_num) (bfh_hex2 (by norm_num) rfl)))))))))))

/-- The exact byte frame `enviar_comando` writes for the region branch. -/
theorem bytesWritten_regiao {code : Nat} (hc : code < 256) :
    bytesWritten (cmd_regiao code) =
      some [0xC8, 0x8C, 0x00, 0x0A, 0x2C, 0x01, code,
        calcular_bcc (dados_regiao code), 0x0D, 0x0A] := by
  have hb := calcular_bcc_lt (dados_regiao code)
  show bytesFromHex (hex2 0xC8 ++ (hex2 0x8C ++ (hex2 0x00 ++ (hex2 0x0A ++ (hex2 0x2C ++
      (hex2 0x01 ++ (hex2 code ++ (hex2 (calcular_bcc (dados_regiao code)) ++ (hex2 0x0D ++
      (hex2 0x0A ++ ([] : List Char))))))))))) = _
  exact bfh_hex2 (by norm_num) (bfh_hex2 (by norm_num) (bfh_hex2 (by norm_num)
    (bfh_hex2 (by norm_num) (bfh_hex2 (by norm_num) (bfh_hex2 (by norm_num)
    (bfh_hex2 hc (bfh_hex2 hb (bfh_hex2 (by norm_num) (bfh_hex2 (by norm_num) rfl)))))))))

/-- The exact byte frame `enviar_comando` writes for the FastID branch. -/
theorem bytesWritten_fastid {v : Nat} (hv : v < 256) :
    bytesWritten (cmd_fastid v) =
      some [0xC8, 0x8C, 0x00, 0x0A, 0x5C, v, 0x00,
        calcular_bcc (dados_fastid v), 0x0D, 0x0A] := by
  have hb := calcular_bcc_lt (dados_fastid v)
  show bytesFromHex (hex2 0xC8 ++ (hex2 0x8C ++ (hex2 0x00 ++ (hex2 0x0A ++ (hex2 0x5C ++
      (hex2 v ++ (hex2 0x00 ++ (hex2 (calcular_bcc (dados_fastid v)) ++ (hex2 0x0D ++
      (hex2 0x0A ++ ([] : List Char))))))))))) = _
  exact bfh_hex2 (by norm_num) (bfh_hex2 (by norm_num) (bfh_hex2 (by norm_num)
    (bfh_hex2 (by norm_num) (bfh_hex2 (by norm_num) (bfh_hex2 hv
    (bfh_hex2 (by norm_num) (bfh_hex2 hb (bfh_hex2 (by norm_num)
    (bfh_hex2 (by norm_num) rfl)))))))))

theorem freq_b0_eq (khz : Nat) : freq_b0 khz = khz % 256 := by
  have h := Nat.and_pow_two_sub_one_eq_mod khz 8
  norm_num at h
  exact h

theorem freq_b1_eq (khz : Nat) : freq_b1 khz = khz / 256 % 256 := by
  have h := Nat.and_pow_two_sub_one_eq_mod (khz >>> 8) 8
  have h2 := Nat.shiftRight_eq_div_pow khz 8
  norm_num at h h2
  unfold freq_b1
  rw [h, h2]

theorem freq_b2_eq (khz : Nat) : freq_b2 khz = khz / 65536 % 256 := by
  have h := Nat.and_pow_two_sub_one_eq_mod (khz >>> 16) 8
  have h2 := Nat.shiftRight_eq_div_pow khz 16
  norm_num at h h2
  unfold freq_b2
  rw [h, h2]

/-- The exact byte frame `enviar_comando` writes for the fixed-frequency branch. -/
theorem bytesWritten_freq (khz : Nat) :
    bytesWritten (cmd_freq khz) =
      some [0xC8, 0x8C, 0x00, 0x0C, 0x14, 0x01, freq_b2 khz, freq_b1 khz, freq_b0 khz,
        calcular_bcc (dados_freq khz), 0x0D, 0x0A] := by
  have hb := calcular_bcc_lt (dados_freq khz)
  have h0 : freq_b0 khz < 256 := by rw [freq_b0_eq]; omega
  have h1 : freq_b1 khz < 256 := by rw [freq_b1_eq]; omega
  have h2 : freq_b2 khz < 256 := by rw [freq_b2_eq]; omega
  show bytesFromHex (hex2 0xC8 ++ (hex2 0x8C ++ (hex2 0x00 ++ (hex2 0x0C ++ (hex2 0x14 ++
      (hex2 0x01 ++ (hex2 (freq_b2 khz) ++ (hex2 (freq_b1 khz) ++ (hex2 (freq_b0 khz) ++
      (hex2 (calcular_bcc (dados_freq khz)) ++ (hex2 0x0D ++ (hex2 0x0A ++
      ([] : List Char))))))))))))) = _
  exact bfh_hex2 (by norm_num) (bfh_hex2 (by norm_num) (bfh_hex2 (by norm_num)
    (bfh_hex2 (by norm_num) (bfh_hex2 (by norm_num) (bfh_hex2 (by norm_num)
    (bfh_hex2 h2 (bfh_hex2 h1 (bfh_hex2 h0 (bfh_hex2 hb
    (bfh_hex2 (by norm_num) (bfh_hex2 (by norm_num) rfl)))))))))))

/-- The antenna branch hex string has 21 characters, so `bytes.fromhex` fails: for
every mask byte, nothing is ever written for the antenna setting. -/
theorem bytesWritten_antenas {mask : Nat} (hm : mask < 256) :
    bytesWritten (cmd_antenas mask) = none := by
  show bytesFromHex (hex2 0xC8 ++ (hex2 0x8C ++ (hex2 0x00 ++ (hex2 0x0B ++ (hex2 0x28 ++
      (hex2 0x01 ++ ('0' :: hexDigit (mask / 16 % 16) ::
        (hexDigit (mask % 16) :: hexDigit (calcular_bcc (dados_antenas mask) / 16 % 16) ::
        (hexDigit (calcular_bcc (dados_antenas mask) % 16) :: '0' ::
        ('D' :: '0' :: ('A' :: ([] : List Char)))))))))))) = none
  refine bfh_hex2_none _ (bfh_hex2_none _ (bfh_hex2_none _ (bfh_hex2_none _ (bfh_hex2_none _
    (bfh_hex2_none _ ?_)))))
  refine bfh_pair_none (show hexVal? '0' = some 0 by decide)
    (hexVal?_hexDigit (show mask / 16 % 16 < 16 by omega)) ?_
  refine bfh_pair_none (hexVal?_hexDigit (show mask % 16 < 16 by omega))
    (hexVal?_hexDigit (show calcular_bcc (dados_antenas mask) / 16 % 16 < 16 by omega)) ?_
  refine bfh_pair_none (hexVal?_hexDigit (show calcular_bcc (dados_antenas mask) % 16 < 16 by omega))
    (show hexVal? '0' = some 0 by decide) ?_
  refine bfh_pair_none (show hexVal? 'D' = some 13 by decide)
    (show hexVal? '0' = some 0 by decide) ?_
  rfl

/-! ### Claims C2, C5, C6, C7 (configuration frames) -/

/-- Claim C2, counterexample: the power frame set_config.py sends for 20 dBm has
length field 0x000E = 14 with a 6-byte data payload, so the length field is not
`2 + 1 + len(data) = 9`. -/
theorem C2_counterexample :
    bytesWritten (cmd_potencia 20) = some powerFrame20 ∧
      lenField powerFrame20 = 14 ∧ (frameData powerFrame20).length = 6 ∧
      lenField powerFrame20 ≠ 2 + 1 + (frameData powerFrame20).length := by
  refine ⟨?_, by decide, by decide, by decide⟩
  decide

/-- Claim C2 as amended: in every frame the scripts encode — the power, region,
FastID and fixed-frequency frames of set_config.py and the eight hardcoded request
frames — the 2-byte big-endian length field equals `8 + len(data)`, the total frame
length from header through trailer (not `2 + 1 + len(data)`). -/
theorem C2_length_field :
    (∀ d : Int, ∃ f, bytesWritten (cmd_potencia d) = some f ∧
        lenField f = f.length ∧ f.length = 8 + (frameData f).length) ∧
    (∀ code : Nat, code < 256 → ∃ f, bytesWritten (cmd_regiao code) = some f ∧
        lenField f = f.length ∧ f.length = 8 + (frameData f).length) ∧
    (∀ v : Nat, v < 256 → ∃ f, bytesWritten (cmd_fastid v) = some f ∧
        lenField f = f.length ∧ f.length = 8 + (frameData f).length) ∧
    (∀ khz : Nat, ∃ f, bytesWritten (cmd_freq khz) = some f ∧
        lenField f = f.length ∧ f.length = 8 + (frameData f).length) ∧
    (∀ s ∈ [firmware_req, temp_req, power_req, regiao_req, antenas_req, fastid_req,
        start_inventory, stop_inventory],
      ∃ f, bytesFromHex s = some f ∧ lenField f = f.length ∧
        f.length = 8 + (frameData f).length) := by
  refine ⟨?_, ?_, ?_, ?_, ?_⟩
  · intro d
    exact ⟨_, bytesWritten_potencia d, by simp [lenField, frameData], by simp [frameData]⟩
  · intro code hc
    exact ⟨_, bytesWritten_regiao hc, by simp [lenField, frameData], by simp [frameData]⟩
  · intro v hv
    exact ⟨_, bytesWritten_fastid hv, by simp [lenField, frameData], by simp [frameData]⟩
  · intro khz
    exact ⟨_, bytesWritten_freq khz, by simp [lenField, frameData], by simp [frameData]⟩
  · intro s hs
    fin_cases hs
    · exact ⟨[0xC8, 0x8C, 0x00, 0x08, 0x02, 0x0A, 0x0D, 0x0A], by decide, by decide, by decide⟩
    · exact ⟨[0xC8, 0x8C, 0x00, 0x08, 0x34, 0x3C, 0x0D, 0x0A], by decide, by decide, by decide⟩
    · exact ⟨[0xC8, 0x8C, 0x00, 0x08, 0x12, 0x1A, 0x0D, 0x0A], by decide, by decide, by decide⟩
    · exact ⟨[0xC8, 0x8C, 0x00, 0x08, 0x2E, 0x26, 0x0D, 0x0A], by decide, by decide, by decide⟩
    · exact ⟨[0xC8, 0x8C, 0x00, 0x08, 0x2A, 0x22, 0x0D, 0x0A], by decide, by decide, by decide⟩
    · exact ⟨[0xC8, 0x8C, 0x00, 0x0A, 0x5E, 0x00, 0x00, 0x54, 0x0D, 0x0A], by decide, by decide,
        by decide⟩
    · exact ⟨[0xC8, 0x8C, 0x00, 0x0A, 0x82, 0x00, 0x00, 0x88, 0x0D, 0x0A], by decide, by decide,
        by decide⟩
    · exact ⟨[0xC8, 0x8C, 0x00, 0x08, 0x8C, 0x84, 0x0D, 0x0A], by decide, by decide, by decide⟩

/-- Witness for `C2_length_field` at concrete inputs. -/
theorem C2_length_field_witness :
    (∃ f, bytesWritten (cmd_regiao 0x3C) = some f ∧
      lenField f = f.length ∧ f.length = 8 + (frameData f).length) ∧
    (∃ f, bytesWritten (cmd_fastid 1) = some f ∧
      lenField f = f.length ∧ f.length = 8 + (frameData f).length) ∧
    (∃ f, bytesFromHex firmware_req = some f ∧ lenField f = f.length ∧
      f.length = 8 + (frameData f).length) :=
  ⟨C2_length_field.2.1 0x3C (by decide), C2_length_field.2.2.1 1 (by decide),
    C2_length_field.2.2.2.2 firmware_req (by decide)⟩

/-- Claim C5, counterexample: setting power to 35 is not rejected — set_config.py
clamps the value to 20 and still writes a full power frame to the serial channel. -/
theorem C5_counterexample : bytesWritten (cmd_potencia 35) = some powerFrame20 := by
  decide

/-- Claim C5 as amended: an out-of-range power request (such as 35) is replaced by the
default 20 rather than rejected, and the frame is still sent; the frame sent for
20 dBm carries 2000 = 0x07D0 in both the read-power and the write-power sub-fields
of its payload `02 01 07 D0 07 D0`. -/
theorem C5_power_clamped :
    (∀ d : Int, ¬(5 ≤ d ∧ d ≤ 30) → cmd_potencia d = cmd_potencia 20) ∧
    bytesWritten (cmd_potencia 20) = some powerFrame20 ∧
    frameData powerFrame20 = [0x02, 0x01, 0x07, 0xD0, 0x07, 0xD0] := by
  refine ⟨?_, by decide, by decide⟩
  intro d h
  have h1 : dbmEff d = 20 := by
    unfold dbmEff
    rw [if_neg h]
  have h2 : dbmEff 20 = 20 := by decide
  unfold cmd_potencia dados_potencia
  rw [h1, h2]

/-- Witness for `C5_power_clamped` at the out-of-range input 35. -/
theorem C5_power_clamped_witness : cmd_potencia 35 = cmd_potencia 20 :=
  C5_power_clamped.1 35 (by decide)

/-- Claim C6, counterexample: for 839999 kHz (and 928001 kHz), set_config.py skips the
frequency branch entirely — nothing is written, and no error of any kind is
reported to the caller (the result dict simply has no entry). -/
theorem C6_counterexample :
    freqOutcome 839999 = FreqOutcome.skipped ∧ freqOutcome 928001 = FreqOutcome.skipped := by
  constructor <;> decide

/-- Claim C6 as amended: a frequency outside [840000, 928000] causes no serial write,
but the rejection is silent (no UnsupportedValue error exists in the code); inside
the range the frame is sent and its data payload is the channel count 1 followed by
the three frequency bytes in high, mid, low order. -/
theorem C6_frequency :
    (∀ khz : Nat, ¬(840000 ≤ khz ∧ khz ≤ 928000) → freqOutcome khz = FreqOutcome.skipped) ∧
    (∀ khz : Nat, 840000 ≤ khz → khz ≤ 928000 →
      freqOutcome khz = FreqOutcome.sent (cmd_freq khz) ∧
      ∃ f, bytesWritten (cmd_freq khz) = some f ∧
        frameData f = [0x01, khz / 65536 % 256, khz / 256 % 256, khz % 256]) := by
  constructor
  · intro khz h
    unfold freqOutcome
    rw [if_neg h]
  · intro khz h1 h2
    refine ⟨by unfold freqOutcome; rw [if_pos ⟨h1, h2⟩], ⟨_, bytesWritten_freq khz, ?_⟩⟩
    simp [frameData, freq_b0_eq, freq_b1_eq, freq_b2_eq]

/-- Witness for `C6_frequency` at 839999 (skipped) and 902000 (sent). -/
theorem C6_frequency_witness :
    freqOutcome 839999 = FreqOutcome.skipped ∧
    (freqOutcome 902000 = FreqOutcome.sent (cmd_freq 902000) ∧
      ∃ f, bytesWritten (cmd_freq 902000) = some f ∧
        frameData f = [0x01, 902000 / 65536 % 256, 902000 / 256 % 256, 902000 % 256]) :=
  ⟨C6_frequency.1 839999 (by decide), C6_frequency.2 902000 (by decide) (by decide)⟩

/-- Claim C7: the claim describes the intended antenna frame (save flag, reserved zero
byte, mask), but the f-string `f"000B28010{ant_mask:02X}"` is missing one `0`: its
hex string has odd length, `bytes.fromhex` raises `ValueError`, and no frame is ever
transmitted for any antenna mask byte. -/
theorem C7_antennas_never_sent :
    ∀ mask : Nat, mask < 256 → bytesWritten (cmd_antenas mask) = none :=
  fun _ hm => bytesWritten_antenas hm

/-- Witness for `C7_antennas_never_sent` at the documented mask 0x0F. -/
theorem C7_antennas_never_sent_witness : bytesWritten (cmd_antenas 0x0F) = none :=
  C7_antennas_never_sent 0x0F (by decide)

/-! ### Claims C8, C9 (field decoding) -/

/-- Claim C8: for every raw antenna byte (0 through 255) the decoded antenna equals
`((raw - 1) mod 4) + 1` under Python's modulo (Lean's `Int.emod`) and lies in the
range 1-4; raw values 1,2,3,4,5,6,7,8 decode to 1,2,3,4,1,2,3,4. -/
theorem C8_antenna_folding :
    (∀ raw : Nat, raw ≤ 255 →
      decodeAntenna raw = ((raw : Int) - 1) % 4 + 1 ∧
        1 ≤ decodeAntenna raw ∧ decodeAntenna raw ≤ 4) ∧
    (List.range 8).map (fun k => decodeAntenna (k + 1)) = [1, 2, 3, 4, 1, 2, 3, 4] := by
  constructor
  · intro raw _
    have hlo := Int.emod_nonneg ((raw : Int) - 1) (by norm_num : (4 : Int) ≠ 0)
    have hhi := Int.emod_lt_of_pos ((raw : Int) - 1) (by norm_num : (0 : Int) < 4)
    exact ⟨rfl, by unfold decodeAntenna; omega, by unfold decodeAntenna; omega⟩
  · decide

/-- Witness for `C8_antenna_folding` at the raw byte 5 (folds onto antenna 1). -/
theorem C8_antenna_folding_witness :
    decodeAntenna 5 = ((5 : Int) - 1) % 4 + 1 ∧ 1 ≤ decodeAntenna 5 ∧ decodeAntenna 5 ≤ 4 :=
  C8_antenna_folding.1 5 (by decide)

/-- Claim C9: for every 2-byte big-endian raw RSSI value the decoded RSSI equals
`(raw - 65536)/10` when `raw > 32767` and `raw/10` otherwise; raw 0xFFFF decodes to
-0.1, raw 0x0000 to 0.0, and raw 0x7FFF to 3276.7 (boundary, not clamped). -/
theorem C9_rssi_decode :
    (∀ hi lo : Nat, hi < 256 → lo < 256 →
      word16 hi lo = 256 * hi + lo ∧
      decodeRssi (word16 hi lo) =
        if 32767 < 256 * hi + lo then (((256 * hi + lo : Nat) : ℚ) - 65536) / 10
        else ((256 * hi + lo : Nat) : ℚ) / 10) ∧
    decodeRssi (word16 0xFF 0xFF) = -(1 / 10) ∧
    decodeRssi (word16 0x00 0x00) = 0 ∧
    decodeRssi (word16 0x7F 0xFF) = 32767 / 10 := by
  refine ⟨?_,
    by rw [show word16 0xFF 0xFF = 65535 from by decide]; norm_num [decodeRssi],
    by rw [show word16 0x00 0x00 = 0 from by decide]; norm_num [decodeRssi],
    by rw [show word16 0x7F 0xFF = 32767 from by decide]; norm_num [decodeRssi]⟩
  intro hi lo _ hlo
  have hw : word16 hi lo = 256 * hi + lo := by
    unfold word16
    rw [Nat.shiftLeft_eq, Nat.mul_comm hi (2 ^ 8),
      ← Nat.mul_add_lt_is_or (show lo < 2 ^ 8 by omega) hi]
  exact ⟨hw, by rw [hw]; rfl⟩

/-- Witness for `C9_rssi_decode` at the raw bytes FF CE (-5.0 dBm). -/
theorem C9_rssi_decode_witness :
    word16 0xFF 0xCE = 256 * 0xFF + 0xCE ∧
    decodeRssi (word16 0xFF 0xCE) =
      if 32767 < 256 * 0xFF + 0xCE then (((256 * 0xFF + 0xCE : Nat) : ℚ) - 65536) / 10
      else ((256 * 0xFF + 0xCE : Nat) : ℚ) / 10 :=
  C9_rssi_decode.1 0xFF 0xCE (by decide) (by decide)

/-! ### Evaluation of the frame parser on the shared concrete frames -/

theorem parseFrame_goodFrame :
    parseFrame goodFrame = FrameStep.ok ⟨"E1E2E3E4".toList, 2, 10⟩ := by
  have h : parseFrame goodFrame =
      FrameStep.ok ⟨hexUpper [0xE1, 0xE2, 0xE3, 0xE4], decodeAntenna 0x02,
        decodeRssi (word16 0x00 0x64)⟩ := rfl
  rw [h, show hexUpper [0xE1, 0xE2, 0xE3, 0xE4] = "E1E2E3E4".toList from by decide,
    show decodeAntenna 0x02 = 2 from by decide,
    show decodeRssi (word16 0x00 0x64) = 10 from by
      rw [show word16 0x00 0x64 = 100 from by decide]; norm_num [decodeRssi]]

theorem parseFrame_badBccFrame :
    parseFrame badBccFrame = FrameStep.ok ⟨"E1E2E3E4".toList, 2, 10⟩ := by
  have h : parseFrame badBccFrame =
      FrameStep.ok ⟨hexUpper [0xE1, 0xE2, 0xE3, 0xE4], decodeAntenna 0x02,
        decodeRssi (word16 0x00 0x64)⟩ := rfl
  rw [h, show hexUpper [0xE1, 0xE2, 0xE3, 0xE4] = "E1E2E3E4".toList from by decide,
    show decodeAntenna 0x02 = 2 from by decide,
    show decodeRssi (word16 0x00 0x64) = 10 from by
      rw [show word16 0x00 0x64 = 100 from by decide]; norm_num [decodeRssi]]

theorem parseFrame_shortFrame : parseFrame shortFrame = FrameStep.crash := by decide

theorem parseFrame_shortEpcFrame :
    parseFrame shortEpcFrame = FrameStep.ok ⟨"E1E2".toList, 2, 10⟩ := by
  have h : parseFrame shortEpcFrame =
      FrameStep.ok ⟨hexUpper [0xE1, 0xE2], decodeAntenna 0x02,
        decodeRssi (word16 0x00 0x64)⟩ := rfl
  rw [h, show hexUpper [0xE1, 0xE2] = "E1E2".toList from by decide,
    show decodeAntenna 0x02 = 2 from by decide,
    show decodeRssi (word16 0x00 0x64) = 10 from by
      rw [show word16 0x00 0x64 = 100 from by decide]; norm_num [decodeRssi]]

theorem parseFrame_zeroEpcFrame :
    parseFrame zeroEpcFrame = FrameStep.ok ⟨[], 2, 10⟩ := by
  have h : parseFrame zeroEpcFrame =
      FrameStep.ok ⟨hexUpper [], decodeAntenna 0x02, decodeRssi (word16 0x00 0x64)⟩ := rfl
  rw [h, show hexUpper [] = [] from rfl, show decodeAntenna 0x02 = 2 from by decide,
    show decodeRssi (word16 0x00 0x64) = 10 from by
      rw [show word16 0x00 0x64 = 100 from by decide]; norm_num [decodeRssi]]

/-! ### Step lemmas for the reading loops -/

theorem runFrames_cons_short {f : List Nat} {fs : List (List Nat)} (h : f.length < 12) :
    runFrames (f :: fs) = runFrames fs := by
  rw [runFrames, if_pos h]

theorem runFrames_cons_skip {f : List Nat} {fs : List (List Nat)} (h12 : ¬f.length < 12)
    (h : parseFrame f = FrameStep.skip) : runFrames (f :: fs) = runFrames fs := by
  rw [runFrames, if_neg h12, h]

theorem runFrames_cons_crash {f : List Nat} {fs : List (List Nat)} (h12 : ¬f.length < 12)
    (h : parseFrame f = FrameStep.crash) : runFrames (f :: fs) = ([], true) := by
  rw [runFrames, if_neg h12, h]

theorem runFrames_cons_ok {f : List Nat} {fs : List (List Nat)} {r : Reading}
    (h12 : ¬f.length < 12) (h : parseFrame f = FrameStep.ok r) :
    runFrames (f :: fs) =
      if r.epc.length = 8 then (r :: (runFrames fs).1, (runFrames fs).2)
      else runFrames fs := by
  rw [runFrames, if_neg h12, h]

theorem runFramesLocal_cons_short {f : List Nat} {fs : List (List Nat)} (h : f.length < 12) :
    runFramesLocal (f :: fs) = runFramesLocal fs := by
  rw [runFramesLocal, if_pos h]

theorem runFramesLocal_cons_none {f : List Nat} {fs : List (List Nat)} (h12 : ¬f.length < 12)
    (h : parse_frame f = none) : runFramesLocal (f :: fs) = runFramesLocal fs := by
  rw [runFramesLocal, if_neg h12, h]

theorem runFramesLocal_cons_some {f : List Nat} {fs : List (List Nat)} {r : Reading}
    (h12 : ¬f.length < 12) (h : parse_frame f = some r) :
    runFramesLocal (f :: fs) =
      if 8 ≤ r.epc.length then r :: runFramesLocal fs else runFramesLocal fs := by
  rw [runFramesLocal, if_neg h12, h]

theorem processBuffer_goodFrame :
    processBuffer goodFrame = ([⟨"E1E2E3E4".toList, 2, 10⟩], false) := by
  unfold processBuffer
  rw [show (splitCRLF goodFrame).1 = [goodFrame] from by decide,
    runFrames_cons_ok (by decide) parseFrame_goodFrame, if_pos (by decide)]
  rfl

theorem processBuffer_badBccFrame :
    processBuffer badBccFrame = ([⟨"E1E2E3E4".toList, 2, 10⟩], false) := by
  unfold processBuffer
  rw [show (splitCRLF badBccFrame).1 = [badBccFrame] from by decide,
    runFrames_cons_ok (by decide) parseFrame_badBccFrame, if_pos (by decide)]
  rfl

theorem processBufferLocal_goodFrame :
    processBufferLocal goodFrame = [⟨"E1E2E3E4".toList, 2, 10⟩] := by
  unfold processBufferLocal
  have hp : parse_frame goodFrame = some ⟨"E1E2E3E4".toList, 2, 10⟩ := by
    unfold parse_frame
    rw [parseFrame_goodFrame]
  rw [show (splitCRLF goodFrame).1 = [goodFrame] from by decide,
    runFramesLocal_cons_some (by decide) hp, if_pos (by decide)]
  rfl

/-! ### Claim C10 (EPC length filter) -/

theorem runFrames_epc_len (fs : List (List Nat)) :
    ∀ r ∈ (runFrames fs).1, r.epc.length = 8 := by
  induction fs with
  | nil => intro r h; simp [runFrames] at h
  | cons f fs ih =>
    intro r h
    by_cases h12 : f.length < 12
    · rw [runFrames_cons_short h12] at h
      exact ih r h
    · cases hp : parseFrame f with
      | skip =>
        rw [runFrames_cons_skip h12 hp] at h
        exact ih r h
      | crash =>
        rw [runFrames_cons_crash h12 hp] at h
        simp at h
      | ok r' =>
        rw [runFrames_cons_ok h12 hp] at h
        by_cases h8 : r'.epc.length = 8
        · rw [if_pos h8] at h
          rcases List.mem_cons.mp h with h | h
          · rw [h]; exact h8
          · exact ih r h
        · rw [if_neg h8] at h
          exact ih r h

theorem runFramesLocal_epc_len (fs : List (List Nat)) :
    ∀ r ∈ runFramesLocal fs, 8 ≤ r.epc.length := by
  induction fs with
  | nil => intro r h; simp [runFramesLocal] at h
  | cons f fs ih =>
    intro r h
    by_cases h12 : f.length < 12
    · rw [runFramesLocal_cons_short h12] at h
      exact ih r h
    · cases hp : parse_frame f with
      | none =>
        rw [runFramesLocal_cons_none h12 hp] at h
        exact ih r h
      | some r' =>
        rw [runFramesLocal_cons_some h12 hp] at h
        by_cases h8 : 8 ≤ r'.epc.length
        · rw [if_pos h8] at h
          rcases List.mem_cons.mp h with h | h
          · rw [h]; exact h8
          · exact ih r h
        · rw [if_neg h8] at h
          exact ih r h

/-- Claim C10: a TagReading is logged only if its EPC hex string has length at least 8
characters — the rfid_scripts reader requires exactly 8, the local reader at least
8 — and a successfully decoded frame whose EPC hex string is shorter (including an
EPC length of 0) is silently dropped while processing continues. -/
theorem C10_epc_filter :
    (∀ buf : List Nat, ∀ r ∈ (processBuffer buf).1, r.epc.length = 8) ∧
    (∀ buf : List Nat, ∀ r ∈ processBufferLocal buf, 8 ≤ r.epc.length) ∧
    (∀ (f : List Nat) (fs : List (List Nat)) (r : Reading), parseFrame f = FrameStep.ok r →
      r.epc.length < 8 →
      runFrames (f :: fs) = runFrames fs ∧ runFramesLocal (f :: fs) = runFramesLocal fs) := by
  refine ⟨fun buf => runFrames_epc_len _, fun buf => runFramesLocal_epc_len _, ?_⟩
  intro f fs r hp h8
  constructor
  · by_cases h12 : f.length < 12
    · exact runFrames_cons_short h12
    · rw [runFrames_cons_ok h12 hp, if_neg (by omega)]
  · by_cases h12 : f.length < 12
    · exact runFramesLocal_cons_short h12
    · have hps : parse_frame f = some r := by
        unfold parse_frame
        rw [hp]
      rw [runFramesLocal_cons_some h12 hps, if_neg (by omega)]

/-- Witness for `C10_epc_filter`: the reading from `goodFrame` has an 8-character EPC,
and the 4-character-EPC frame `shortEpcFrame` is parsed but dropped by both loops. -/
theorem C10_epc_filter_witness :
    (⟨"E1E2E3E4".toList, 2, 10⟩ : Reading).epc.length = 8 ∧
    8 ≤ (⟨"E1E2E3E4".toList, 2, 10⟩ : Reading).epc.length ∧
    (runFrames [shortEpcFrame] = runFrames [] ∧
      runFramesLocal [shortEpcFrame] = runFramesLocal []) :=
  ⟨C10_epc_filter.1 goodFrame _ (by rw [processBuffer_goodFrame]; exact List.mem_singleton.mpr rfl),
    C10_epc_filter.2.1 goodFrame _
      (by rw [processBufferLocal_goodFrame]; exact List.mem_singleton.mpr rfl),
    C10_epc_filter.2.2 shortEpcFrame [] ⟨"E1E2".toList, 2, 10⟩ parseFrame_shortEpcFrame
      (by decide)⟩

/-! ### Claim C4 (malformed frames) -/

/-- Claim C4, counterexample: prepending the malformed `shortFrame` (too short for its
PC-declared EPC) to the valid `goodFrame` does not merely drop the malformed frame —
the rfid_scripts reading loop terminates (`sair()` via the outer bare `except:`) and
the following good frame is never processed, although `goodFrame` alone yields a
reading. -/
theorem C4_counterexample :
    processBuffer (shortFrame ++ goodFrame) = ([], true) ∧
    processBuffer goodFrame = ([⟨"E1E2E3E4".toList, 2, 10⟩], false) := by
  constructor
  · unfold processBuffer
    rw [show (splitCRLF (shortFrame ++ goodFrame)).1 = [shortFrame, goodFrame] from by decide]
    exact runFrames_cons_crash (by decide) parseFrame_shortFrame
  · exact processBuffer_goodFrame

/-- Claim C4 as amended: in the local reader every frame `parse_frame` rejects is
dropped with the loop continuing, and in the rfid_scripts reader a frame whose EPC
length decodes to 0 is likewise only dropped; but in the rfid_scripts reader a frame
too short for the PC-declared EPC+RSSI+antenna fields raises an uncaught
`IndexError` that terminates the whole reading loop. -/
theorem C4_malformed_frames :
    (∀ (f : List Nat) (fs : List (List Nat)), parse_frame f = none →
      runFramesLocal (f :: fs) = runFramesLocal fs) ∧
    (∀ (f : List Nat) (fs : List (List Nat)) (r : Reading), parseFrame f = FrameStep.ok r →
      r.epc = [] → runFrames (f :: fs) = runFrames fs) ∧
    (∀ (f : List Nat) (fs : List (List Nat)), ¬f.length < 12 →
      parseFrame f = FrameStep.crash → runFrames (f :: fs) = ([], true)) := by
  refine ⟨?_, ?_, fun f fs h12 hp => runFrames_cons_crash h12 hp⟩
  · intro f fs hp
    by_cases h12 : f.length < 12
    · exact runFramesLocal_cons_short h12
    · exact runFramesLocal_cons_none h12 hp
  · intro f fs r hp he
    by_cases h12 : f.length < 12
    · exact runFrames_cons_short h12
    · rw [runFrames_cons_ok h12 hp, if_neg (by rw [he]; decide)]

/-- Witness for `C4_malformed_frames` on `shortFrame` (dropped locally, crashes the
rfid_scripts loop) and `zeroEpcFrame` (zero EPC length, dropped). -/
theorem C4_malformed_frames_witness :
    runFramesLocal [shortFrame] = runFramesLocal [] ∧
    runFrames [zeroEpcFrame] = runFrames [] ∧
    runFrames [shortFrame] = ([], true) :=
  ⟨C4_malformed_frames.1 shortFrame [] (by decide),
    C4_malformed_frames.2.1 zeroEpcFrame [] ⟨[], 2, 10⟩ parseFrame_zeroEpcFrame rfl,
    C4_malformed_frames.2.2 shortFrame [] (by decide) parseFrame_shortFrame⟩

/-! ### Claim C3 (checksum validation) -/

theorem getD_append_left {l t : List Nat} {n d : Nat} (h : n < l.length) :
    (l ++ t).getD n d = l.getD n d := by
  simp [List.getD_eq_getElem?_getD, List.getElem?_append_left h]

theorem getD_append_right {l t : List Nat} {n d : Nat} (h : l.length ≤ n) :
    (l ++ t).getD n d = t.getD (n - l.length) d := by
  simp [List.getD_eq_getElem?_getD, List.getElem?_append_right h]

theorem take_append_left {l t : List Nat} {n : Nat} (h : n ≤ l.length) :
    (l ++ t).take n = l.take n := by
  rw [List.take_append_eq_append_take, Nat.sub_eq_zero_of_le h, List.take_zero,
    List.append_nil]

theorem drop_take_append {l t : List Nat} {k n : Nat} (h : k + n ≤ l.length) :
    ((l ++ t).drop k).take n = (l.drop k).take n := by
  rw [List.drop_append_eq_append_drop, Nat.sub_eq_zero_of_le (by omega), List.drop_zero,
    take_append_left (show n ≤ (l.drop k).length by simp; omega)]

theorem epcLenOf_append {front t : List Nat} (h : 7 ≤ front.length) :
    epcLenOf (front ++ t) = epcLenOf front := by
  unfold epcLenOf
  rw [getD_append_left (by omega), getD_append_left (by omega)]

/-- The per-frame parser never reads past index `9 + epc_len`: its result is unchanged
under replacing everything after that point — in particular the checksum byte. -/
theorem parseFrame_tail_irrelevant {front t₁ t₂ : List Nat}
    (hlen : t₁.length = t₂.length) (hfit : 10 + epcLenOf front ≤ front.length) :
    parseFrame (front ++ t₁) = parseFrame (front ++ t₂) := by
  have hn : 10 ≤ front.length := by omega
  simp only [parseFrame]
  rw [epcLenOf_append (by omega), epcLenOf_append (by omega)]
  rw [List.length_append, List.length_append, hlen]
  rw [take_append_left (by omega), take_append_left (by omega)]
  rw [getD_append_left (n := 4) (by omega), getD_append_left (n := 4) (by omega)]
  rw [drop_take_append (by omega), drop_take_append (by omega)]
  rw [getD_append_left (n := 7 + epcLenOf front) (by omega),
    getD_append_left (n := 7 + epcLenOf front) (by omega),
    getD_append_left (n := 8 + epcLenOf front) (by omega),
    getD_append_left (n := 8 + epcLenOf front) (by omega),
    getD_append_left (n := 9 + epcLenOf front) (by omega),
    getD_append_left (n := 9 + epcLenOf front) (by omega)]

/-- The first 14 bytes of `goodFrame` — everything before checksum and trailer. -/
def goodFront : List Nat :=
  [0xC8, 0x8C, 0x00, 0x11, 0x83, 0x10, 0x00, 0xE1, 0xE2, 0xE3, 0xE4, 0x00, 0x64, 0x02]

/-- Claim C3, counterexample: `badBccFrame` carries checksum byte 0xFF although the XOR
of its length, command and data bytes is 0xE0, yet the rfid_scripts decoder still
accepts the frame and yields its command's content as a logged reading. -/
theorem C3_counterexample :
    bccBytes ((badBccFrame.drop 2).take 12) = 0xE0 ∧
    badBccFrame.getD 14 0 = 0xFF ∧
    processBuffer badBccFrame = ([⟨"E1E2E3E4".toList, 2, 10⟩], false) :=
  ⟨by decide, by decide, processBuffer_badBccFrame⟩

/-- Claim C3 as amended: the receive paths validate only the header, the 0D 0A
terminator, a minimum length and the command byte — the checksum is never examined.
The rfid_scripts frame parser is invariant under any change of the bytes at and
after the checksum position, and check_config.py's `enviar_comando` acceptance
depends only on the response's length, first two bytes and command byte. -/
theorem C3_checksum_ignored :
    (∀ front t₁ t₂ : List Nat, t₁.length = t₂.length →
      10 + epcLenOf front ≤ front.length →
      parseFrame (front ++ t₁) = parseFrame (front ++ t₂)) ∧
    (∀ (resp₁ resp₂ : List Nat) (e : Option Nat), resp₁.length = resp₂.length →
      resp₁.take 2 = resp₂.take 2 → resp₁.getD 4 0 = resp₂.getD 4 0 →
      resp_ok resp₁ e = resp_ok resp₂ e) := by
  refine ⟨fun front t₁ t₂ hlen hfit => parseFrame_tail_irrelevant hlen hfit, ?_⟩
  intro r₁ r₂ e hlen htake hget
  unfold resp_ok
  rw [hlen, htake, hget]

/-- Witness for `C3_checksum_ignored`: the correct-checksum and corrupted-checksum
variants of the same inventory frame parse identically, and two firmware responses
differing in every data and checksum byte are both accepted. -/
theorem C3_checksum_ignored_witness :
    parseFrame (goodFront ++ [0xE0, 0x0D, 0x0A]) =
      parseFrame (goodFront ++ [0xFF, 0x0D, 0x0A]) ∧
    resp_ok [0xC8, 0x8C, 0x00, 0x0A, 0x03, 0x00, 0x00, 0x02, 0x01, 0x00] (some 3) =
      resp_ok [0xC8, 0x8C, 0x00, 0x0A, 0x03, 0xAA, 0xBB, 0xCC, 0xDD, 0xEE] (some 3) :=
  ⟨C3_checksum_ignored.1 goodFront [0xE0, 0x0D, 0x0A] [0xFF, 0x0D, 0x0A] (by decide) (by decide),
    C3_checksum_ignored.2 _ _ (some 3) (by decide) (by decide) (by decide)⟩

/-! ### Claim C1 (FrameCodec round-trip, modelled from the spec) -/

/-- Claim C1: for every command byte and every data payload shorter than 65533 bytes,
decoding the encoded wire frame (header, 2-byte big-endian length, command, data,
XOR checksum over length+command+data, trailer) yields exactly the same
(command, data) pair, consuming the whole frame. -/
theorem C1_roundtrip (cmd : Nat) (data : List Nat) (hc : cmd < 256)
    (hd : ∀ b ∈ data, b < 256) (hn : data.length < 65533) :
    ∃ f, encode cmd data = some f ∧
      tryDecode f = DecodeResult.decoded cmd data f.length := by
  have henc : encode cmd data =
      some ([0xC8, 0x8C, (2 + 1 + data.length) / 256, (2 + 1 + data.length) % 256, cmd] ++
        (data ++ [bccBytes ([(2 + 1 + data.length) / 256, (2 + 1 + data.length) % 256, cmd] ++
          data), 0x0D, 0x0A])) := by
    unfold encode
    rw [if_neg (show ¬65533 ≤ data.length by omega)]
    simp [List.append_assoc]
  refine ⟨_, henc, ?_⟩
  generalize hL1 : (2 + 1 + data.length) / 256 = a1
  generalize hL2 : (2 + 1 + data.length) % 256 = a2
  generalize hB : bccBytes ([a1, a2, cmd] ++ data) = B
  have hsum : 256 * a1 + a2 = 2 + 1 + data.length := by
    rw [← hL1, ← hL2]
    exact Nat.div_add_mod _ _
  have hfind : findHeader ([0xC8, 0x8C, a1, a2, cmd] ++ (data ++ [B, 0x0D, 0x0A])) = some 0 := rfl
  unfold tryDecode
  rw [hfind]
  show tryDecodeFrom 0 _ = _
  unfold tryDecodeFrom
  rw [List.drop_zero]
  rw [show ([0xC8, 0x8C, a1, a2, cmd] ++ (data ++ [B, 0x0D, 0x0A])).length = data.length + 8
      from by simp]
  rw [show ([0xC8, 0x8C, a1, a2, cmd] ++ (data ++ [B, 0x0D, 0x0A])).getD 2 0 = a1 from rfl,
    show ([0xC8, 0x8C, a1, a2, cmd] ++ (data ++ [B, 0x0D, 0x0A])).getD 3 0 = a2 from rfl,
    show ([0xC8, 0x8C, a1, a2, cmd] ++ (data ++ [B, 0x0D, 0x0A])).getD 4 0 = cmd from rfl]
  rw [hsum]
  rw [if_neg (show ¬data.length + 8 < 8 by omega),
    if_neg (show ¬2 + 1 + data.length < 3 by omega),
    if_neg (show ¬data.length + 8 < 2 + 1 + data.length + 5 by omega)]
  rw [show 2 + 1 + data.length + 3 = data.length + 1 + 5 from by omega,
    show 2 + 1 + data.length + 4 = data.length + 2 + 5 from by omega,
    show 2 + 1 + data.length + 2 = data.length + 5 from by omega]
  have peel : ∀ (k d : Nat),
      (([0xC8, 0x8C, a1, a2, cmd] : List Nat) ++ (data ++ [B, 0x0D, 0x0A])).getD (k + 5) d =
        (data ++ [B, 0x0D, 0x0A]).getD k d := fun k d => rfl
  simp only [peel]
  rw [getD_append_right (show data.length ≤ data.length + 1 by omega),
    getD_append_right (show data.length ≤ data.length + 2 by omega),
    getD_append_right (le_refl data.length)]
  rw [show data.length + 1 - data.length = 1 from by omega,
    show data.length + 2 - data.length = 2 from by omega,
    Nat.sub_self]
  have hbody : ((([0xC8, 0x8C, a1, a2, cmd] : List Nat) ++
      (data ++ [B, 0x0D, 0x0A])).drop 2).take (2 + 1 + data.length) = [a1, a2, cmd] ++ data := by
    have h1 : (([0xC8, 0x8C, a1, a2, cmd] : List Nat) ++ (data ++ [B, 0x0D, 0x0A])).drop 2 =
        ([a1, a2, cmd] ++ data) ++ [B, 0x0D, 0x0A] := by
      simp [List.append_assoc]
    rw [h1, List.take_left' (by simp; omega)]
  rw [hbody, hB]
  rw [if_pos ⟨rfl, rfl, rfl⟩]
  have hdata : ((([0xC8, 0x8C, a1, a2, cmd] : List Nat) ++
      (data ++ [B, 0x0D, 0x0A])).drop 5).take (2 + 1 + data.length - 3) = data := by
    have h5 : (([0xC8, 0x8C, a1, a2, cmd] : List Nat) ++ (data ++ [B, 0x0D, 0x0A])).drop 5 =
        data ++ [B, 0x0D, 0x0A] := rfl
    rw [h5, show 2 + 1 + data.length - 3 = data.length from by omega]
    exact List.take_left' rfl
  rw [hdata, show 0 + (2 + 1 + data.length) + 5 = data.length + 8 from by omega]

/-- Witness for `C1_roundtrip` at command 0x02 with payload [0xAB]. -/
theorem C1_roundtrip_witness :
    ∃ f, encode 0x02 [0xAB] = some f ∧
      tryDecode f = DecodeResult.decoded 0x02 [0xAB] f.length :=
  C1_roundtrip 0x02 [0xAB] (by decide) (by decide) (by decide)

end CM710
